import Mathlib

/-!
Verification development for the EduPortal learning-management system.

The repository ships a React front end (src/frontend, src/unnamed) and
documentation of its Django backend (src/ADMIN_ROLE_FIX.md quotes the
backend User model and views verbatim).  Pure front-end computations
(`getExamStatus`, `isEnrolled`, `renderStars`, the progress averages, the
salary table) are embedded directly from the JavaScript source.  Backend
endpoint behaviour that is not shipped under src/ (enroll, submit_exam,
mark_paid, the salary total) is modelled from the specification, and each
such definition says so in its doc comment.

Conventions: JavaScript numbers that carry currency or percentages become
`ℚ`; timestamps become `Int` (milliseconds or minutes are irrelevant to
the ordering facts proved here); JavaScript arrays become `List`.
-/

namespace EduPortal

/-! ## Identity and role model

`Role` and `User.save` are embedded from the backend code quoted in
src/ADMIN_ROLE_FIX.md (backend/api/models.py and views.py). -/

inductive Role where
  | admin
  | teacher
  | student
deriving DecidableEq, Repr

structure User where
  is_superuser : Bool
  role : Role
deriving DecidableEq, Repr

/-- `User.save` from src/ADMIN_ROLE_FIX.md lines 49-54:
`if self.is_superuser and self.role != 'admin': self.role = 'admin'`
then the underlying save persists the instance. -/
def User.save (u : User) : User :=
  if u.is_superuser ∧ u.role ≠ Role.admin then { u with role := Role.admin } else u

/-- The login view from src/ADMIN_ROLE_FIX.md lines 60-77: after
authentication, `if user.is_superuser and user.role != 'admin':
user.role = 'admin'; user.save()`; the (possibly updated) user is
returned in the response. -/
def login (u : User) : User :=
  if u.is_superuser ∧ u.role ≠ Role.admin then User.save { u with role := Role.admin } else u

/-- The profile endpoint from src/ADMIN_ROLE_FIX.md lines 84-95 applies the
same coercion before serialising the user. -/
def profileFetch (u : User) : User :=
  if u.is_superuser ∧ u.role ≠ Role.admin then User.save { u with role := Role.admin } else u

/-! ## Exam status (student exam list)

Embedded from `getExamStatus` in src/unnamed/part_006 lines 104-113 and the
render sites at lines 215 and 306 (the Start Exam button is rendered only
when the computed status is `active`). -/

inductive ExamStatus where
  | upcoming
  | ended
  | ongoing
  | active
deriving DecidableEq, Repr

structure ExamView where
  start_time : Int
  end_time : Int
  is_ongoing : Bool
deriving Repr

/-- `getExamStatus` from src/unnamed/part_006 lines 104-113. -/
def getExamStatus (now : Int) (exam : ExamView) : ExamStatus :=
  if now < exam.start_time then ExamStatus.upcoming
  else if now > exam.end_time then ExamStatus.ended
  else if exam.is_ongoing then ExamStatus.ongoing
  else ExamStatus.active

/-- src/unnamed/part_006 line 215: the Start Exam button is rendered exactly
when `status === 'active'`. -/
def startExamOffered (now : Int) (exam : ExamView) : Bool :=
  getExamStatus now exam = ExamStatus.active

/-! ## Enrollment

The catalog-side predicate `isEnrolled` is embedded from
src/frontend/src/components/student/CourseCatalog.js lines 69-73; the
Enroll/Enrolled buttons at lines 200-217 are gated on its negation.  The
enroll endpoint itself (`POST /api/courses/:id/enroll/`) is not shipped
under src/, so it is modelled from the specification. -/

structure Enrollment where
  student : Nat
  course : Nat
  completion_percentage : ℚ
  is_active : Bool
deriving DecidableEq, Repr

/-- `isEnrolled` from CourseCatalog.js lines 69-73:
`enrollments.some(e => e.course === courseId && e.is_active)`. -/
def isEnrolled (enrollments : List Enrollment) (courseId : Nat) : Bool :=
  enrollments.any fun e => e.course == courseId && e.is_active

/-- CourseCatalog.js lines 200-217: the Enroll button (wired to
`handleEnroll`) is rendered exactly when `!isEnrolled(course.id)`;
otherwise a disabled Enrolled button is shown. -/
def enrollActionOffered (enrollments : List Enrollment) (courseId : Nat) : Bool :=
  !(isEnrolled enrollments courseId)

structure Course where
  id : Nat
  is_active : Bool
  max_students : Nat
deriving Repr

/-- Count of active enrollments of a course — the spec's derived
`enrolled_students_count`. -/
def activeCount (enrollments : List Enrollment) (courseId : Nat) : Nat :=
  (enrollments.filter fun e => e.course == courseId && e.is_active).length

inductive EnrollError where
  | CourseInactive
  | AlreadyEnrolled
  | CapacityExceeded
deriving DecidableEq, Repr

/-- Modelled from the spec: the backend enroll endpoint
(`POST /api/courses/:id/enroll/`, backend/api/views.py, absent from src/).
Spec §4.2: preconditions `course.is_active = true`,
`enrolled_students_count < max_students`, no existing active Enrollment for
(student, course); on success create
`Enrollment(completion_percentage=0, is_active=true)`; enrolling past
capacity fails with CapacityExceeded and a duplicate active enrollment
fails with AlreadyEnrolled.  The duplicate check is performed before the
capacity check so that, as the spec's testable properties require, the
second enroll of the same student is answered with AlreadyEnrolled even on
a full course. -/
def enroll (course : Course) (enrollments : List Enrollment) (student : Nat) :
    Except EnrollError (List Enrollment) :=
  if ¬course.is_active then Except.error EnrollError.CourseInactive
  else if enrollments.any
      (fun e => e.student == student && e.course == course.id && e.is_active) then
    Except.error EnrollError.AlreadyEnrolled
  else if course.max_students ≤ activeCount enrollments course.id then
    Except.error EnrollError.CapacityExceeded
  else
    Except.ok (⟨student, course.id, 0, true⟩ :: enrollments)

/-- One enroll request as a state transformer: a failed request leaves the
enrollment table unchanged (spec §7: every mutating operation either fully
succeeds or fully fails). -/
def enrollStep (course : Course) (enrollments : List Enrollment) (student : Nat) :
    List Enrollment :=
  match enroll course enrollments student with
  | Except.ok es => es
  | Except.error _ => enrollments

/-! ## Teacher salary ledger

The admin table in
src/frontend/src/components/admin/TeacherSalaryManagement.js displays the
server-computed `total_salary` (lines 286-297) and sums it for the paid
records (lines 155-158); the Mark Paid action (lines 62-69, 306-319) posts
to `/api/teacher-salaries/:id/mark_paid/`.  The TeacherSalaryRecord model
itself lives in the backend, absent from src/, and is modelled from the
specification. -/

inductive PaymentStatus where
  | pending
  | paid
  | failed
deriving DecidableEq, Repr

structure TeacherSalaryRecord where
  teacher : Nat
  month : Nat
  base_salary : ℚ
  bonus : ℚ
  deductions : ℚ
  total_salary : ℚ
  payment_status : PaymentStatus
  payment_date : Option Int
deriving DecidableEq, Repr

/-- Modelled from the spec: creation of a TeacherSalaryRecord
(backend/api/models.py, absent from src/).  Spec §3/§4.4: `total_salary =
base_salary + bonus − deductions` is a derived field, recomputed on save,
and `payment_date` is set only on the transition to paid. -/
def mkSalaryRecord (teacher month : Nat) (base bonus deductions : ℚ) :
    TeacherSalaryRecord :=
  { teacher := teacher, month := month, base_salary := base, bonus := bonus,
    deductions := deductions, total_salary := base + bonus - deductions,
    payment_status := PaymentStatus.pending, payment_date := none }

/-- Modelled from the spec: editing the amount fields of a record
recomputes `total_salary` on save — it is never stored stale and is not
independently editable (spec §4.4). -/
def updateSalaryAmounts (r : TeacherSalaryRecord) (base bonus deductions : ℚ) :
    TeacherSalaryRecord :=
  { r with base_salary := base, bonus := bonus, deductions := deductions,
           total_salary := base + bonus - deductions }

inductive SalaryError where
  | AlreadyPaid
deriving DecidableEq, Repr

/-- Modelled from the spec: the backend `mark_paid` action
(`POST /api/teacher-salaries/:id/mark_paid/`, absent from src/).  Spec
§4.4: fails if already paid; otherwise sets `payment_status = paid` and
`payment_date = now`. -/
def mark_paid (r : TeacherSalaryRecord) (now : Int) :
    Except SalaryError TeacherSalaryRecord :=
  if r.payment_status = PaymentStatus.paid then Except.error SalaryError.AlreadyPaid
  else Except.ok { r with payment_status := PaymentStatus.paid, payment_date := some now }

/-! ## Exam attempts and submission

The student exam page (src/unnamed/part_006) starts and submits attempts
through `POST /api/exams/:id/start_exam/` and
`POST /api/exams/:id/submit_exam/` (lines 45-102); the endpoint bodies are
not shipped under src/, so submission and grading are modelled from the
specification (§4.3).  Times are integer timestamps; the spec writes the
deadline as `min(attempt.start_time + duration_minutes, exam.end_time)`. -/

structure Question where
  id : Nat
  points : ℚ
  correct_option_ids : List Nat
deriving Repr

structure Exam where
  start_time : Int
  end_time : Int
  duration_minutes : Int
  questions : List Question
deriving Repr

/-- One submitted answer, as assembled by `handleSubmitExam`
(src/unnamed/part_006 lines 94-102): a question id plus an optional
selected option id (free-text answers carry no option). -/
structure Answer where
  question_id : Nat
  selected_option_id : Option Nat
deriving Repr

structure ExamAttempt where
  student : Nat
  start_time : Int
  submitted : Bool
  score : Option ℚ
deriving DecidableEq, Repr

/-- Modelled from the spec: grading (spec §4.3).  A multiple-choice answer
is correct iff the selected option is marked correct; free-text answers are
left ungraded and contribute nothing; the total score is the sum of graded
points. -/
def gradeAnswers (questions : List Question) (answers : List Answer) : ℚ :=
  answers.foldl
    (fun total a =>
      match questions.find? (fun q => q.id == a.question_id) with
      | none => total
      | some q =>
        match a.selected_option_id with
        | none => total
        | some opt =>
          if q.correct_option_ids.contains opt then total + q.points else total)
    0

inductive SubmitError where
  | AlreadySubmitted
  | WindowExpired
deriving DecidableEq, Repr

/-- Modelled from the spec: the backend `submit_exam` endpoint
(backend/api/views.py, absent from src/).  Spec §4.3: fails if the attempt
is already submitted, or if
`now > min(attempt.start_time + duration_minutes, exam.end_time)` — late
submissions are rejected, not silently accepted.  On success the answers
are graded, the score recorded, and the attempt marked submitted. -/
def submit_exam (exam : Exam) (attempt : ExamAttempt) (answers : List Answer)
    (now : Int) : Except SubmitError ExamAttempt :=
  if attempt.submitted then Except.error SubmitError.AlreadySubmitted
  else if now > min (attempt.start_time + exam.duration_minutes) exam.end_time then
    Except.error SubmitError.WindowExpired
  else
    Except.ok { attempt with submitted := true,
                             score := some (gradeAnswers exam.questions answers) }

/-- One submit request as a state transformer on the attempt: a rejected
request leaves the attempt unchanged (spec §7: mutating operations fully
succeed or fully fail). -/
def submitStep (exam : Exam) (attempt : ExamAttempt)
    (call : List Answer × Int) : ExamAttempt :=
  match submit_exam exam attempt call.1 call.2 with
  | Except.ok a => a
  | Except.error _ => attempt

/-! ## Teacher progress summary

Embedded from src/frontend/src/components/teacher/StudentProgress.js
lines 131-135.  `progressRecords` may be absent (the optional-chaining
`progressRecords?.` path): with it absent the JavaScript expression
evaluates to `undefined / 1 = NaN`, which the trailing `|| 0` collapses to
0; that branch is the `none` case below. -/

structure ProgressRecord where
  attendance_percentage : ℚ
  overall_score : ℚ
  week_number : Nat
deriving Repr

/-- `averageAttendance` from StudentProgress.js line 133:
`progressRecords?.reduce((sum, p) => sum + p.attendance_percentage, 0) /
(progressRecords?.length || 1) || 0`. -/
def averageAttendance (records : Option (List ProgressRecord)) : ℚ :=
  match records with
  | none => 0
  | some rs =>
    (rs.foldl (fun sum p => sum + p.attendance_percentage) 0) /
      (if rs.length = 0 then 1 else (rs.length : ℚ))

/-- `averageOverallScore` from StudentProgress.js line 134, same shape over
`overall_score`. -/
def averageOverallScore (records : Option (List ProgressRecord)) : ℚ :=
  match records with
  | none => 0
  | some rs =>
    (rs.foldl (fun sum p => sum + p.overall_score) 0) /
      (if rs.length = 0 then 1 else (rs.length : ℚ))

/-! ## Course rating stars

Embedded from `renderStars` in
src/frontend/src/components/pages/CoursesPage.js lines 158-177 (the same
helper appears in src/unnamed/part_004 lines 99-118). -/

inductive Star where
  | full
  | half
  | empty
deriving DecidableEq, Repr

/-- `renderStars`: `Math.floor(rating)` full stars; one half star when
`rating % 1 !== 0` (i.e. the rating is not an integer); then
`5 - Math.ceil(rating)` empty stars.  JavaScript `for` loops with a
negative bound run zero times, hence the `Int.toNat` coercions. -/
def renderStars (rating : ℚ) : List Star :=
  List.replicate (Int.toNat ⌊rating⌋) Star.full ++
    (if (⌊rating⌋ : ℚ) = rating then [] else [Star.half]) ++
    List.replicate (Int.toNat (5 - ⌈rating⌉)) Star.empty

/-! # Theorems -/

/-! ### Helper lemmas about enrollment -/

theorem activeCount_cons_active (es : List Enrollment) (s cid : Nat) :
    activeCount (⟨s, cid, 0, true⟩ :: es) cid = activeCount es cid + 1 := by
  simp [activeCount, List.filter_cons]

theorem enroll_ok_count (c : Course) (es : List Enrollment) (s : Nat)
    (es' : List Enrollment) (henr : enroll c es s = Except.ok es') :
    activeCount es c.id < c.max_students ∧
    activeCount es' c.id = activeCount es c.id + 1 := by
  unfold enroll at henr
  split_ifs at henr with h1 h2 h3
  all_goals first
    | exact Except.noConfusion henr
    | (cases henr; exact ⟨by omega, activeCount_cons_active es s c.id⟩)

theorem enrollStep_count_le (c : Course) (es : List Enrollment) (s : Nat)
    (h : activeCount es c.id ≤ c.max_students) :
    activeCount (enrollStep c es s) c.id ≤ c.max_students := by
  unfold enrollStep
  cases henr : enroll c es s with
  | error err => exact h
  | ok es' =>
    obtain ⟨hlt, hcount⟩ := enroll_ok_count c es s es' henr
    have hgoal : activeCount es' c.id ≤ c.max_students := by omega
    simpa using hgoal

theorem enroll_foldl_count_le (c : Course) (students : List Nat) :
    ∀ es : List Enrollment, activeCount es c.id ≤ c.max_students →
      activeCount (students.foldl (enrollStep c) es) c.id ≤ c.max_students := by
  induction students with
  | nil => intro es h; simpa using h
  | cons s ss ih =>
    intro es h
    simpa [List.foldl_cons] using ih _ (enrollStep_count_le c es s h)

/-- C1: the number of active enrollments of a course never exceeds
`max_students` under any sequence of enroll requests; an enroll request
against an active course whose active-enrollment count has reached
`max_students` (from a student not already actively enrolled) fails with
CapacityExceeded, and at capacity no enroll request ever creates an
enrollment. -/
theorem enroll_capacity_never_exceeded (c : Course) (es : List Enrollment)
    (s : Nat) (students : List Nat)
    (hcount : activeCount es c.id ≤ c.max_students) :
    activeCount (students.foldl (enrollStep c) es) c.id ≤ c.max_students ∧
    (c.is_active = true →
      (¬ ∃ e ∈ es, e.student = s ∧ e.course = c.id ∧ e.is_active = true) →
      c.max_students ≤ activeCount es c.id →
      enroll c es s = Except.error EnrollError.CapacityExceeded) ∧
    (c.max_students ≤ activeCount es c.id →
      ∀ es', enroll c es s ≠ Except.ok es') := by
  refine ⟨enroll_foldl_count_le c students es hcount, ?_, ?_⟩
  · intro hact hnodup hfull
    have hany : (es.any fun e => e.student == s && e.course == c.id && e.is_active)
        = false := by
      rw [List.any_eq_false]
      intro e he hcon
      simp only [Bool.and_eq_true, beq_iff_eq] at hcon
      exact hnodup ⟨e, he, hcon.1.1, hcon.1.2, hcon.2⟩
    simp [enroll, hact, hany, hfull]
  · intro hfull es' hok
    obtain ⟨hlt, _⟩ := enroll_ok_count c es s es' hok
    omega

/-- Witness for C1: a course with capacity 1 already holding one active
enrollment rejects a further enroll request with CapacityExceeded. -/
theorem enroll_capacity_never_exceeded_witness :
    enroll ⟨1, true, 1⟩ [⟨10, 1, 0, true⟩] 11 =
      Except.error EnrollError.CapacityExceeded :=
  (enroll_capacity_never_exceeded ⟨1, true, 1⟩ [⟨10, 1, 0, true⟩] 11 [11, 12]
    (by decide)).2.1 rfl (by decide) (by decide)

/-- C3: a second enroll request for a (student, course) pair that already
has an active enrollment is rejected with AlreadyEnrolled and changes
nothing; in the catalog view `isEnrolled` returns true exactly when some
enrollment has the matching course id and `is_active` true, and the Enroll
action is offered exactly when no such enrollment exists. -/
theorem duplicate_enrollment_rejected (c : Course) (es : List Enrollment)
    (s : Nat) (hact : c.is_active = true)
    (hdup : ∃ e ∈ es, e.student = s ∧ e.course = c.id ∧ e.is_active = true) :
    enroll c es s = Except.error EnrollError.AlreadyEnrolled ∧
    enrollStep c es s = es ∧
    (∀ (ens : List Enrollment) (courseId : Nat),
      isEnrolled ens courseId = true ↔
        ∃ e ∈ ens, e.course = courseId ∧ e.is_active = true) ∧
    (∀ (ens : List Enrollment) (courseId : Nat),
      enrollActionOffered ens courseId = true ↔
        ¬ ∃ e ∈ ens, e.course = courseId ∧ e.is_active = true) := by
  have hiff : ∀ (ens : List Enrollment) (courseId : Nat),
      isEnrolled ens courseId = true ↔
        ∃ e ∈ ens, e.course = courseId ∧ e.is_active = true := by
    intro ens cid
    simp [isEnrolled, List.any_eq_true, Bool.and_eq_true, beq_iff_eq]
  have henr : enroll c es s = Except.error EnrollError.AlreadyEnrolled := by
    have hany : (es.any fun e => e.student == s && e.course == c.id && e.is_active)
        = true := by
      rw [List.any_eq_true]
      obtain ⟨e, he, h1, h2, h3⟩ := hdup
      exact ⟨e, he, by simp [h1, h2, h3]⟩
    simp [enroll, hact, hany]
  refine ⟨henr, by simp [enrollStep, henr], hiff, ?_⟩
  intro ens cid
  constructor
  · intro hoff hex
    have htrue := (hiff ens cid).2 hex
    simp [enrollActionOffered, htrue] at hoff
  · intro hnex
    have hfalse : isEnrolled ens cid = false := by
      cases hb : isEnrolled ens cid
      · rfl
      · exact absurd ((hiff ens cid).1 hb) hnex
    simp [enrollActionOffered, hfalse]

/-- Witness for C3: a student with an existing active enrollment in course 2
is rejected with AlreadyEnrolled on the second request. -/
theorem duplicate_enrollment_rejected_witness :
    enroll ⟨2, true, 5⟩ [⟨7, 2, 0, true⟩] 7 =
      Except.error EnrollError.AlreadyEnrolled :=
  (duplicate_enrollment_rejected ⟨2, true, 5⟩ [⟨7, 2, 0, true⟩] 7 rfl
    (by decide)).1

/-- C2: for every user, if `is_superuser` is true then immediately after
save and after login (and on profile fetch) the user's role reads back as
admin, even when a different role was explicitly set before saving. -/
theorem superuser_role_coerced_to_admin (u : User) (h : u.is_superuser = true) :
    (User.save u).role = Role.admin ∧ (login u).role = Role.admin ∧
    (profileFetch u).role = Role.admin := by
  refine ⟨?_, ?_, ?_⟩
  · by_cases hr : u.role = Role.admin <;> simp [User.save, h, hr]
  · by_cases hr : u.role = Role.admin <;> simp [login, User.save, h, hr]
  · by_cases hr : u.role = Role.admin <;> simp [profileFetch, User.save, h, hr]

/-- Witness for C2: Scenario D — a user created with `is_superuser = true`
and role student explicitly set reads back as admin after save and login. -/
theorem superuser_role_coerced_to_admin_witness :
    (User.save ⟨true, Role.student⟩).role = Role.admin ∧
    (login ⟨true, Role.student⟩).role = Role.admin ∧
    (profileFetch ⟨true, Role.student⟩).role = Role.admin :=
  superuser_role_coerced_to_admin ⟨true, Role.student⟩ rfl

/-- C4: `total_salary` always equals `base_salary + bonus − deductions`:
it holds on creation, is recomputed whenever the amount fields change, and
is untouched by `mark_paid`; the example record (base 1000, bonus 100,
deductions 50) yields 1050. -/
theorem total_salary_is_derived (t m : Nat) (base bonus ded : ℚ)
    (r : TeacherSalaryRecord) (now : Int)
    (hinv : r.total_salary = r.base_salary + r.bonus - r.deductions) :
    ((mkSalaryRecord t m base bonus ded).total_salary =
      (mkSalaryRecord t m base bonus ded).base_salary +
        (mkSalaryRecord t m base bonus ded).bonus -
        (mkSalaryRecord t m base bonus ded).deductions) ∧
    ((updateSalaryAmounts r base bonus ded).total_salary =
      (updateSalaryAmounts r base bonus ded).base_salary +
        (updateSalaryAmounts r base bonus ded).bonus -
        (updateSalaryAmounts r base bonus ded).deductions) ∧
    (∀ r', mark_paid r now = Except.ok r' →
      r'.total_salary = r'.base_salary + r'.bonus - r'.deductions) ∧
    (mkSalaryRecord t m 1000 100 50).total_salary = 1050 := by
  refine ⟨rfl, rfl, ?_, by norm_num [mkSalaryRecord]⟩
  intro r' hok
  unfold mark_paid at hok
  split_ifs at hok with h1
  all_goals first
    | exact Except.noConfusion hok
    | (cases hok; simpa using hinv)

/-- Witness for C4: the Scenario C record evaluates to total 1050. -/
theorem total_salary_is_derived_witness :
    (mkSalaryRecord 1 1 1000 100 50).total_salary = 1050 :=
  (total_salary_is_derived 1 1 1000 100 50 (mkSalaryRecord 1 1 1000 100 50) 0
    rfl).2.2.2

/-- C5: `mark_paid` on a pending record succeeds, setting the status to
paid and the payment date to now, and a second `mark_paid` on the result is
rejected with AlreadyPaid (so the payment date stays as set by the first
call); `mark_paid` on any already-paid record is rejected. -/
theorem mark_paid_transitions (r : TeacherSalaryRecord) (now now2 : Int)
    (hp : r.payment_status = PaymentStatus.pending) :
    (∃ r', mark_paid r now = Except.ok r' ∧
      r'.payment_status = PaymentStatus.paid ∧ r'.payment_date = some now ∧
      mark_paid r' now2 = Except.error SalaryError.AlreadyPaid) ∧
    (∀ q : TeacherSalaryRecord, q.payment_status = PaymentStatus.paid →
      mark_paid q now2 = Except.error SalaryError.AlreadyPaid) := by
  have hnot : r.payment_status ≠ PaymentStatus.paid := by rw [hp]; simp
  constructor
  · have hok : mark_paid r now = Except.ok
        { r with payment_status := PaymentStatus.paid, payment_date := some now } := by
      simp [mark_paid, hnot]
    exact ⟨_, hok, rfl, rfl, by simp [mark_paid]⟩
  · intro q hq
    simp [mark_paid, hq]

/-- Witness for C5: marking the Scenario C record paid at time 5 succeeds,
and the second call at time 9 is rejected leaving the date at 5. -/
theorem mark_paid_transitions_witness :
    ∃ r', mark_paid (mkSalaryRecord 1 2 1000 100 50) 5 = Except.ok r' ∧
      r'.payment_status = PaymentStatus.paid ∧ r'.payment_date = some 5 ∧
      mark_paid r' 9 = Except.error SalaryError.AlreadyPaid :=
  (mark_paid_transitions (mkSalaryRecord 1 2 1000 100 50) 5 9 rfl).1

/-- C6: submitting an exam attempt after the allowed window — when
`now > min(attempt.start_time + duration_minutes, exam.end_time)` — is
rejected with WindowExpired, leaves the attempt unchanged (so it is not
scored), and a late submission is never accepted. -/
theorem late_submission_rejected (exam : Exam) (a : ExamAttempt)
    (answers : List Answer) (now : Int)
    (hlate : now > min (a.start_time + exam.duration_minutes) exam.end_time) :
    (a.submitted = false →
      submit_exam exam a answers now = Except.error SubmitError.WindowExpired ∧
      submitStep exam a (answers, now) = a) ∧
    (∀ a', submit_exam exam a answers now ≠ Except.ok a') := by
  constructor
  · intro hns
    have herr : submit_exam exam a answers now =
        Except.error SubmitError.WindowExpired := by
      simp [submit_exam, hns, hlate]
    exact ⟨herr, by simp [submitStep, herr]⟩
  · intro a' hok
    unfold submit_exam at hok
    split_ifs at hok

/-- Witness for C6: with a 30-minute duration, an attempt started at 0 and
submitted at 50 (window end 100) is rejected with WindowExpired. -/
theorem late_submission_rejected_witness :
    submit_exam ⟨0, 100, 30, []⟩ ⟨1, 0, false, none⟩ [] 50 =
      Except.error SubmitError.WindowExpired :=
  ((late_submission_rejected ⟨0, 100, 30, []⟩ ⟨1, 0, false, none⟩ [] 50
    (by decide)).1 rfl).1

/-! ### Helper lemmas about submitted attempts -/

theorem submitStep_submitted (exam : Exam) (b : ExamAttempt)
    (hb : b.submitted = true) (call : List Answer × Int) :
    submitStep exam b call = b := by
  simp [submitStep, submit_exam, hb]

theorem submit_foldl_submitted (exam : Exam) (b : ExamAttempt)
    (hb : b.submitted = true) :
    ∀ calls : List (List Answer × Int), calls.foldl (submitStep exam) b = b := by
  intro calls
  induction calls with
  | nil => rfl
  | cons cl cls ih =>
    rw [List.foldl_cons, submitStep_submitted exam b hb cl]
    exact ih

/-- C7: a successful submit records the graded score and marks the attempt
submitted; every further submit call on that attempt is rejected with
AlreadySubmitted, and any number of further submit requests leaves the
attempt — hence the recorded score — exactly as after the first successful
submit. -/
theorem resubmission_idempotent (exam : Exam) (a : ExamAttempt)
    (answers : List Answer) (now : Int) (a₁ : ExamAttempt)
    (hok : submit_exam exam a answers now = Except.ok a₁) :
    a₁.submitted = true ∧
    a₁.score = some (gradeAnswers exam.questions answers) ∧
    (∀ (answers₂ : List Answer) (now₂ : Int),
      submit_exam exam a₁ answers₂ now₂ =
        Except.error SubmitError.AlreadySubmitted) ∧
    (∀ calls : List (List Answer × Int),
      calls.foldl (submitStep exam) a₁ = a₁) := by
  have hkey : a₁.submitted = true ∧
      a₁.score = some (gradeAnswers exam.questions answers) := by
    unfold submit_exam at hok
    split_ifs at hok
    all_goals first
      | exact Except.noConfusion hok
      | (cases hok; exact ⟨rfl, rfl⟩)
  obtain ⟨hsub, hscore⟩ := hkey
  refine ⟨hsub, hscore, ?_, submit_foldl_submitted exam _ hsub⟩
  intro answers₂ now₂
  simp [submit_exam, hsub]

/-- Witness for C7: a fresh attempt submitted in time scores 5 on its one
correct answer, and re-submitting the resulting attempt is rejected. -/
theorem resubmission_idempotent_witness :
    submit_exam ⟨0, 100, 30, [⟨1, 5, [2]⟩]⟩ ⟨1, 0, true, some 5⟩ [] 20 =
      Except.error SubmitError.AlreadySubmitted :=
  (resubmission_idempotent ⟨0, 100, 30, [⟨1, 5, [2]⟩]⟩ ⟨1, 0, false, none⟩
    [⟨1, some 2⟩] 10 ⟨1, 0, true, some 5⟩
    (by simp [submit_exam, gradeAnswers])).2.2.1 [] 20

/-- C8: for an exam whose window is well-formed (`start_time ≤ end_time`),
the displayed state is upcoming exactly when `now < start_time`, ended
exactly when `now > end_time`, and inside the window it is ongoing when
the exam has an ongoing attempt and active otherwise; the Start Exam
action is offered exactly in the active state. -/
theorem exam_status_from_time_window (now : Int) (e : ExamView)
    (hw : e.start_time ≤ e.end_time) :
    (getExamStatus now e = ExamStatus.upcoming ↔ now < e.start_time) ∧
    (getExamStatus now e = ExamStatus.ended ↔ now > e.end_time) ∧
    (e.start_time ≤ now → now ≤ e.end_time →
      getExamStatus now e =
        (if e.is_ongoing then ExamStatus.ongoing else ExamStatus.active)) ∧
    (startExamOffered now e = true ↔ getExamStatus now e = ExamStatus.active) := by
  by_cases h1 : now < e.start_time
  · have hs : getExamStatus now e = ExamStatus.upcoming := by simp [getExamStatus, h1]
    refine ⟨by simp [hs, h1], ?_, ?_, by simp [startExamOffered]⟩
    · rw [hs]; simp; omega
    · intro hc _; omega
  · by_cases h2 : now > e.end_time
    · have hs : getExamStatus now e = ExamStatus.ended := by simp [getExamStatus, h1, h2]
      refine ⟨?_, by simp [hs, h2], ?_, by simp [startExamOffered]⟩
      · rw [hs]; simp; omega
      · intro _ hc; omega
    · have hs : getExamStatus now e =
          (if e.is_ongoing then ExamStatus.ongoing else ExamStatus.active) := by
        simp [getExamStatus, h1, h2]
      refine ⟨?_, ?_, fun _ _ => hs, by simp [startExamOffered]⟩
      · rw [hs]
        by_cases h3 : e.is_ongoing <;> simp [h3] <;> omega
      · rw [hs]
        by_cases h3 : e.is_ongoing <;> simp [h3] <;> omega

/-- Witness for C8: an exam with window [10, 20] and no ongoing attempt,
observed at time 15, is active and the Start Exam action is offered. -/
theorem exam_status_from_time_window_witness :
    (getExamStatus 15 ⟨10, 20, false⟩ = ExamStatus.upcoming ↔ (15 : Int) < 10) ∧
    (getExamStatus 15 ⟨10, 20, false⟩ = ExamStatus.ended ↔ (15 : Int) > 20) ∧
    ((10 : Int) ≤ 15 → (15 : Int) ≤ 20 →
      getExamStatus 15 ⟨10, 20, false⟩ =
        (if (false : Bool) then ExamStatus.ongoing else ExamStatus.active)) ∧
    (startExamOffered 15 ⟨10, 20, false⟩ = true ↔
      getExamStatus 15 ⟨10, 20, false⟩ = ExamStatus.active) :=
  exam_status_from_time_window 15 ⟨10, 20, false⟩ (by decide)

/-- C9: with the progress-record list absent or empty, the computed average
attendance and average overall score are both 0 (the division is guarded,
so no division-by-zero value is shown); for a non-empty list each equals
the arithmetic mean of the corresponding field. -/
theorem progress_averages_guarded (rs : List ProgressRecord) (h : rs ≠ []) :
    averageAttendance none = 0 ∧ averageOverallScore none = 0 ∧
    averageAttendance (some []) = 0 ∧ averageOverallScore (some []) = 0 ∧
    averageAttendance (some rs) =
      (rs.map (fun p => p.attendance_percentage)).sum / (rs.length : ℚ) ∧
    averageOverallScore (some rs) =
      (rs.map (fun p => p.overall_score)).sum / (rs.length : ℚ) := by
  have hlen : rs.length ≠ 0 := by simpa using h
  refine ⟨rfl, rfl, by norm_num [averageAttendance],
    by norm_num [averageOverallScore], ?_, ?_⟩
  · simp only [averageAttendance]
    rw [if_neg hlen]
    congr 1
    rw [List.sum_eq_foldl, List.foldl_map]
  · simp only [averageOverallScore]
    rw [if_neg hlen]
    congr 1
    rw [List.sum_eq_foldl, List.foldl_map]

/-- Witness for C9: two records with attendance 50 and 100 average to 75,
and the empty and absent lists give 0. -/
theorem progress_averages_guarded_witness :
    averageAttendance none = 0 ∧
    averageAttendance (some []) = 0 ∧
    averageAttendance (some [⟨50, 80, 1⟩, ⟨100, 90, 2⟩]) = 75 := by
  have h := progress_averages_guarded [⟨50, 80, 1⟩, ⟨100, 90, 2⟩] (by simp)
  refine ⟨h.1, h.2.2.1, ?_⟩
  rw [h.2.2.2.2.1]
  norm_num

/-- C10: for every rating `r` with `0 ≤ r ≤ 5`, the star renderer produces
exactly 5 icons — `⌊r⌋` full stars, one half star exactly when `r` is not
an integer, and `5 − ⌈r⌉` empty stars. -/
theorem renderStars_total_five (r : ℚ) (h0 : 0 ≤ r) (h5 : r ≤ 5) :
    (renderStars r).length = 5 ∧
    (renderStars r).count Star.full = Int.toNat ⌊r⌋ ∧
    (renderStars r).count Star.half = (if (⌊r⌋ : ℚ) = r then 0 else 1) ∧
    (renderStars r).count Star.empty = Int.toNat (5 - ⌈r⌉) := by
  have hfl0 : (0 : ℤ) ≤ ⌊r⌋ := Int.floor_nonneg.mpr h0
  have hcl5 : ⌈r⌉ ≤ 5 := Int.ceil_le.mpr (by exact_mod_cast h5)
  have hflc : ⌊r⌋ ≤ ⌈r⌉ := Int.floor_le_ceil r
  have hclf : ⌈r⌉ ≤ ⌊r⌋ + 1 := Int.ceil_le_floor_add_one r
  by_cases hint : (⌊r⌋ : ℚ) = r
  · have hce : ⌈r⌉ = ⌊r⌋ := by
      conv_lhs => rw [← hint]
      exact Int.ceil_intCast ⌊r⌋
    refine ⟨?_, ?_, ?_, ?_⟩
    · simp [renderStars, hint, hce]
      omega
    all_goals
      simp [renderStars, hint, List.count_append, List.count_replicate]
  · have hce : ⌈r⌉ = ⌊r⌋ + 1 := by
      rcases eq_or_lt_of_le hflc with heq | hlt
      · exfalso
        apply hint
        have hle : r ≤ (⌊r⌋ : ℚ) := by
          calc r ≤ (⌈r⌉ : ℚ) := Int.le_ceil r
          _ = (⌊r⌋ : ℚ) := by exact_mod_cast congrArg Int.cast heq.symm
        exact le_antisymm (Int.floor_le r) hle
      · omega
    refine ⟨?_, ?_, ?_, ?_⟩
    · simp [renderStars, hint, hce]
      omega
    all_goals
      simp [renderStars, hint, List.count_append, List.count_replicate,
        List.count_cons]

/-- Witness for C10: the rating 7/2 renders exactly 5 stars. -/
theorem renderStars_total_five_witness :
    (renderStars (7 / 2 : ℚ)).length = 5 :=
  (renderStars_total_five (7 / 2 : ℚ) (by norm_num) (by norm_num)).1

end EduPortal
